import Mathlib

/-!
Coordinate transform engine of `Firmware/mesh_bed_calibration.h`.

A shallow embedding of the inline functions `world2machine`, `machine2world`
and `world2machine_clamp` of `Firmware/mesh_bed_calibration.h`, with the
properties of the specification stated over it.

Modelling conventions.

* `float` values are exact rationals (`ℚ`): every statement below is a
  statement of exact arithmetic, rounding is not modelled.
* The global variables `world2machine_correction_mode`,
  `world2machine_rotation_and_skew`, `world2machine_rotation_and_skew_inv`
  and `world2machine_shift` are the fields of an explicit `TransformState`
  that every function receives.
* A `float &` parameter that a function may write is modelled by state
  passing: the function receives the prior contents of the variable and
  returns its final contents.  A path of the source that does not assign the
  variable therefore returns the prior contents.  The output variables are
  distinct from the inputs (no aliasing), as at every call in this header.
* The overloads of `world2machine` and of `machine2world` share a name in
  C++; here the four-argument ones carry the suffix `_out` and the
  two-argument ones the suffix `_inplace`.
* The macros `X_MIN_POS`, `X_MAX_POS`, `Y_MIN_POS`, `Y_MAX_POS` are not
  defined in this header; they are the fields of a `TravelLimits` parameter.
-/

namespace MeshBedCalibration

/-! ## Data model -/

/-- Enumerator `WORLD2MACHINE_CORRECTION_NONE = 0` (line 12). -/
def WORLD2MACHINE_CORRECTION_NONE : Nat := 0

/-- Enumerator `WORLD2MACHINE_CORRECTION_SHIFT = 1` (line 13). -/
def WORLD2MACHINE_CORRECTION_SHIFT : Nat := 1

/-- Enumerator `WORLD2MACHINE_CORRECTION_SKEW = 2` (line 14). -/
def WORLD2MACHINE_CORRECTION_SKEW : Nat := 2

/-- The transform state: the four globals declared on lines 16 to 23.
The mode is a `uint8_t`, here a natural number (representable when below 256);
the matrices are `float [2][2]`, the shift is `float [2]`. -/
structure TransformState where
  world2machine_correction_mode : Nat
  world2machine_rotation_and_skew : Matrix (Fin 2) (Fin 2) ℚ
  world2machine_rotation_and_skew_inv : Matrix (Fin 2) (Fin 2) ℚ
  world2machine_shift : Fin 2 → ℚ

/-- The travel limits `X_MIN_POS`, `X_MAX_POS`, `Y_MIN_POS`, `Y_MAX_POS`
used by `world2machine_clamp` (lines 120 to 135); their values come from the
printer configuration, outside this header. -/
structure TravelLimits where
  X_MIN_POS : ℚ
  X_MAX_POS : ℚ
  Y_MIN_POS : ℚ
  Y_MAX_POS : ℚ

/-! ## The transforms -/

/-- The overload `world2machine(const float &x, const float &y, float &out_x,
float &out_y)` (lines 35 to 53).  `out` holds the contents of
`(out_x, out_y)` before the call, the result their contents after it. -/
def world2machine_out (s : TransformState) (x y : ℚ) (out : ℚ × ℚ) : ℚ × ℚ :=
  if s.world2machine_correction_mode = WORLD2MACHINE_CORRECTION_NONE then
    (x, y)
  else
    let out1 : ℚ × ℚ :=
      if s.world2machine_correction_mode &&& WORLD2MACHINE_CORRECTION_SKEW ≠ 0 then
        (s.world2machine_rotation_and_skew 0 0 * x + s.world2machine_rotation_and_skew 0 1 * y,
         s.world2machine_rotation_and_skew 1 0 * x + s.world2machine_rotation_and_skew 1 1 * y)
      else out
    if s.world2machine_correction_mode &&& WORLD2MACHINE_CORRECTION_SHIFT ≠ 0 then
      (out1.1 + s.world2machine_shift 0, out1.2 + s.world2machine_shift 1)
    else out1

/-- The overload `world2machine(float &x, float &y)` (lines 55 to 73): the
result is the contents of `(x, y)` after the call. -/
def world2machine_inplace (s : TransformState) (x y : ℚ) : ℚ × ℚ :=
  if s.world2machine_correction_mode = WORLD2MACHINE_CORRECTION_NONE then
    (x, y)
  else
    let p1 : ℚ × ℚ :=
      if s.world2machine_correction_mode &&& WORLD2MACHINE_CORRECTION_SKEW ≠ 0 then
        (s.world2machine_rotation_and_skew 0 0 * x + s.world2machine_rotation_and_skew 0 1 * y,
         s.world2machine_rotation_and_skew 1 0 * x + s.world2machine_rotation_and_skew 1 1 * y)
      else (x, y)
    if s.world2machine_correction_mode &&& WORLD2MACHINE_CORRECTION_SHIFT ≠ 0 then
      (p1.1 + s.world2machine_shift 0, p1.2 + s.world2machine_shift 1)
    else p1

/-- The overload `machine2world(float x, float y, float &out_x, float &out_y)`
(lines 75 to 93).  `x` and `y` are passed by value; `out` holds the contents
of `(out_x, out_y)` before the call, the result their contents after it. -/
def machine2world_out (s : TransformState) (x y : ℚ) (out : ℚ × ℚ) : ℚ × ℚ :=
  if s.world2machine_correction_mode = WORLD2MACHINE_CORRECTION_NONE then
    (x, y)
  else
    let p1 : ℚ × ℚ :=
      if s.world2machine_correction_mode &&& WORLD2MACHINE_CORRECTION_SHIFT ≠ 0 then
        (x - s.world2machine_shift 0, y - s.world2machine_shift 1)
      else (x, y)
    if s.world2machine_correction_mode &&& WORLD2MACHINE_CORRECTION_SKEW ≠ 0 then
      (s.world2machine_rotation_and_skew_inv 0 0 * p1.1
         + s.world2machine_rotation_and_skew_inv 0 1 * p1.2,
       s.world2machine_rotation_and_skew_inv 1 0 * p1.1
         + s.world2machine_rotation_and_skew_inv 1 1 * p1.2)
    else out

/-- The overload `machine2world(float &x, float &y)` (lines 95 to 113): the
result is the contents of `(x, y)` after the call. -/
def machine2world_inplace (s : TransformState) (x y : ℚ) : ℚ × ℚ :=
  if s.world2machine_correction_mode = WORLD2MACHINE_CORRECTION_NONE then
    (x, y)
  else
    let p1 : ℚ × ℚ :=
      if s.world2machine_correction_mode &&& WORLD2MACHINE_CORRECTION_SHIFT ≠ 0 then
        (x - s.world2machine_shift 0, y - s.world2machine_shift 1)
      else (x, y)
    if s.world2machine_correction_mode &&& WORLD2MACHINE_CORRECTION_SKEW ≠ 0 then
      (s.world2machine_rotation_and_skew_inv 0 0 * p1.1
         + s.world2machine_rotation_and_skew_inv 0 1 * p1.2,
       s.world2machine_rotation_and_skew_inv 1 0 * p1.1
         + s.world2machine_rotation_and_skew_inv 1 1 * p1.2)
    else p1

/-- The function `world2machine_clamp(float &x, float &y)` (lines 115 to 139).
`tmp` holds the indeterminate initial values of the uninitialised locals
`tmpx`, `tmpy` (line 118).  The result is the returned flag `clamped` together
with the contents of `(x, y)` after the call. -/
def world2machine_clamp (L : TravelLimits) (s : TransformState) (x y : ℚ)
    (tmp : ℚ × ℚ) : Bool × (ℚ × ℚ) :=
  let t0 : ℚ × ℚ := world2machine_out s x y tmp
  let tmpx1 : ℚ := if t0.1 < L.X_MIN_POS then L.X_MIN_POS else t0.1
  let c1 : Bool := if t0.1 < L.X_MIN_POS then true else false
  let tmpy1 : ℚ := if t0.2 < L.Y_MIN_POS then L.Y_MIN_POS else t0.2
  let c2 : Bool := if t0.2 < L.Y_MIN_POS then true else c1
  let tmpx2 : ℚ := if tmpx1 > L.X_MAX_POS then L.X_MAX_POS else tmpx1
  let c3 : Bool := if tmpx1 > L.X_MAX_POS then true else c2
  let tmpy2 : ℚ := if tmpy1 > L.Y_MAX_POS then L.Y_MAX_POS else tmpy1
  let c4 : Bool := if tmpy1 > L.Y_MAX_POS then true else c3
  if c4 then (true, machine2world_out s tmpx2 tmpy2 (x, y)) else (false, (x, y))

/-! ## The result code -/

/-- Enumerator `BED_SKEW_OFFSET_DETECTION_FAILED = -1` (line 148). -/
def BED_SKEW_OFFSET_DETECTION_FAILED : Int := -1

/-- Enumerator `BED_SKEW_OFFSET_DETECTION_PERFECT = 0` (line 151). -/
def BED_SKEW_OFFSET_DETECTION_PERFECT : Int := 0

/-- Enumerator `BED_SKEW_OFFSET_DETECTION_SKEW_MILD = 1` (line 152). -/
def BED_SKEW_OFFSET_DETECTION_SKEW_MILD : Int := 1

/-- Enumerator `BED_SKEW_OFFSET_DETECTION_SKEW_EXTREME = 2` (line 153). -/
def BED_SKEW_OFFSET_DETECTION_SKEW_EXTREME : Int := 2

/-- Enumerator `BED_SKEW_OFFSET_DETECTION_FRONT_LEFT_FAR = 4` (line 155). -/
def BED_SKEW_OFFSET_DETECTION_FRONT_LEFT_FAR : Int := 4

/-- Enumerator `BED_SKEW_OFFSET_DETECTION_FRONT_RIGHT_FAR = 8` (line 156). -/
def BED_SKEW_OFFSET_DETECTION_FRONT_RIGHT_FAR : Int := 8

/-- Enumerator `BED_SKEW_OFFSET_DETECTION_FRONT_BOTH_FAR`, defined on line 157
as the bitwise or of the two `FAR` enumerators. -/
def BED_SKEW_OFFSET_DETECTION_FRONT_BOTH_FAR : Int :=
  Int.lor BED_SKEW_OFFSET_DETECTION_FRONT_LEFT_FAR BED_SKEW_OFFSET_DETECTION_FRONT_RIGHT_FAR

/-- The three grades, in the order of the enumeration. -/
def gradeCode : Fin 3 → Int :=
  ![BED_SKEW_OFFSET_DETECTION_PERFECT, BED_SKEW_OFFSET_DETECTION_SKEW_MILD,
    BED_SKEW_OFFSET_DETECTION_SKEW_EXTREME]

/-- The bitwise or of a subset of the two advisory bits; `l` and `r` say
whether `FRONT_LEFT_FAR` and `FRONT_RIGHT_FAR` belong to the subset. -/
def advisoryCode (l r : Bool) : Int :=
  Int.lor (if l then BED_SKEW_OFFSET_DETECTION_FRONT_LEFT_FAR else 0)
    (if r then BED_SKEW_OFFSET_DETECTION_FRONT_RIGHT_FAR else 0)

/-- A result value: one grade or-ed with a subset of the advisory bits. -/
def resultCode (g : Fin 3) (l r : Bool) : Int :=
  Int.lor (gradeCode g) (advisoryCode l r)

/-! ## The reversed composition of the specification -/

/-- The composition in the reversed order, which the specification sets
against `world2machine`: the shift is added first and the rotation and skew
matrix applied second, `R * ((x, y) + shift)`.  It follows the words of the
specification; the source has no such function. -/
def shift_then_skew (s : TransformState) (x y : ℚ) : ℚ × ℚ :=
  (s.world2machine_rotation_and_skew 0 0 * (x + s.world2machine_shift 0)
     + s.world2machine_rotation_and_skew 0 1 * (y + s.world2machine_shift 1),
   s.world2machine_rotation_and_skew 1 0 * (x + s.world2machine_shift 0)
     + s.world2machine_rotation_and_skew 1 1 * (y + s.world2machine_shift 1))

/-! ## Predicates used in the statements -/

/-- The three modes the specification lists as legal: `NONE` (0), `SHIFT` (1)
and `SKEW | SHIFT` (3). -/
def legalMode (s : TransformState) : Prop :=
  s.world2machine_correction_mode = 0 ∨ s.world2machine_correction_mode = 1 ∨
    s.world2machine_correction_mode = 3

/-- The stored inverse is the matrix inverse of the rotation and skew matrix:
both products are the identity. -/
def invInSync (s : TransformState) : Prop :=
  s.world2machine_rotation_and_skew * s.world2machine_rotation_and_skew_inv = 1 ∧
    s.world2machine_rotation_and_skew_inv * s.world2machine_rotation_and_skew = 1

/-- A machine point lies within the travel limits. -/
def inBounds (L : TravelLimits) (p : ℚ × ℚ) : Prop :=
  L.X_MIN_POS ≤ p.1 ∧ p.1 ≤ L.X_MAX_POS ∧ L.Y_MIN_POS ≤ p.2 ∧ p.2 ≤ L.Y_MAX_POS

/-- The travel limits are ordered on both axes. -/
def limitsOrdered (L : TravelLimits) : Prop :=
  L.X_MIN_POS ≤ L.X_MAX_POS ∧ L.Y_MIN_POS ≤ L.Y_MAX_POS

instance (s : TransformState) : Decidable (legalMode s) := by
  unfold legalMode; infer_instance

instance (s : TransformState) : Decidable (invInSync s) := by
  unfold invInSync; infer_instance

instance (L : TravelLimits) (p : ℚ × ℚ) : Decidable (inBounds L p) := by
  unfold inBounds; infer_instance

instance (L : TravelLimits) : Decidable (limitsOrdered L) := by
  unfold limitsOrdered; infer_instance

/-! ## Concrete states used as examples -/

/-- A state in mode `SKEW | SHIFT` with a shear matrix, its inverse and a
non-zero shift. -/
def skewShiftState : TransformState where
  world2machine_correction_mode := 3
  world2machine_rotation_and_skew := !![1, 2; 0, 1]
  world2machine_rotation_and_skew_inv := !![1, -2; 0, 1]
  world2machine_shift := ![5, 7]

/-- A state in mode `SHIFT` with identity matrices and the shift `(5, 7)`. -/
def shiftState : TransformState where
  world2machine_correction_mode := 1
  world2machine_rotation_and_skew := !![1, 0; 0, 1]
  world2machine_rotation_and_skew_inv := !![1, 0; 0, 1]
  world2machine_shift := ![5, 7]

/-- A state in mode `NONE` whose matrices and shift are arbitrary values that
are not inverse to each other. -/
def noneState : TransformState where
  world2machine_correction_mode := 0
  world2machine_rotation_and_skew := !![3, 1; 4, 1]
  world2machine_rotation_and_skew_inv := !![5, 9; 2, 6]
  world2machine_shift := ![11, 13]

/-- A state in mode `SKEW | SHIFT` whose shear matrix fixes its non-zero
shift `(5, 0)`. -/
def fixedShiftState : TransformState where
  world2machine_correction_mode := 3
  world2machine_rotation_and_skew := !![1, 2; 0, 1]
  world2machine_rotation_and_skew_inv := !![1, -2; 0, 1]
  world2machine_shift := ![5, 0]

/-- A state in the mode `SKEW` without `SHIFT` (2). -/
def skewOnlyState : TransformState where
  world2machine_correction_mode := 2
  world2machine_rotation_and_skew := !![1, 2; 0, 1]
  world2machine_rotation_and_skew_inv := !![1, -2; 0, 1]
  world2machine_shift := ![5, 7]

/-- A state whose mode (4) is not zero and has neither of the two flag bits. -/
def spareBitState : TransformState where
  world2machine_correction_mode := 4
  world2machine_rotation_and_skew := !![1, 2; 0, 1]
  world2machine_rotation_and_skew_inv := !![1, -2; 0, 1]
  world2machine_shift := ![5, 7]

/-- A state in mode `SHIFT` whose matrices are arbitrary values that are not
inverse to each other. -/
def shiftJunkState : TransformState where
  world2machine_correction_mode := 1
  world2machine_rotation_and_skew := !![3, 1; 4, 1]
  world2machine_rotation_and_skew_inv := !![5, 9; 2, 6]
  world2machine_shift := ![5, 7]

/-- Travel limits `0 ≤ x ≤ 250`, `0 ≤ y ≤ 210`. -/
def sampleLimits : TravelLimits where
  X_MIN_POS := 0
  X_MAX_POS := 250
  Y_MIN_POS := 0
  Y_MAX_POS := 210

/-! ## Auxiliary lemmas -/

/-- Entrywise reading of a product of two 2×2 matrices being the identity. -/
theorem mul_eq_one_entries (A B : Matrix (Fin 2) (Fin 2) ℚ) (h : A * B = 1) :
    A 0 0 * B 0 0 + A 0 1 * B 1 0 = 1 ∧ A 0 0 * B 0 1 + A 0 1 * B 1 1 = 0 ∧
      A 1 0 * B 0 0 + A 1 1 * B 1 0 = 0 ∧ A 1 0 * B 0 1 + A 1 1 * B 1 1 = 1 := by
  have h00 := congrFun (congrFun h 0) 0
  have h01 := congrFun (congrFun h 0) 1
  have h10 := congrFun (congrFun h 1) 0
  have h11 := congrFun (congrFun h 1) 1
  simp [Matrix.mul_apply, Fin.sum_univ_two] at h00 h01 h10 h11
  exact ⟨h00, h01, h10, h11⟩

/-- In-place round trip in any mode, from `Rinv * R = 1` alone. -/
theorem inplace_roundtrip_of_left_inv (s : TransformState)
    (h : s.world2machine_rotation_and_skew_inv * s.world2machine_rotation_and_skew = 1)
    (x y : ℚ) :
    machine2world_inplace s (world2machine_inplace s x y).1 (world2machine_inplace s x y).2
      = (x, y) := by
  obtain ⟨h00, h01, h10, h11⟩ := mul_eq_one_entries _ _ h
  unfold machine2world_inplace world2machine_inplace
  by_cases hn : s.world2machine_correction_mode = WORLD2MACHINE_CORRECTION_NONE
  · simp [hn]
  · by_cases hk : s.world2machine_correction_mode &&& WORLD2MACHINE_CORRECTION_SKEW = 0 <;>
      by_cases hs : s.world2machine_correction_mode &&& WORLD2MACHINE_CORRECTION_SHIFT = 0 <;>
      simp only [hn, hk, hs, if_true, if_false, ne_eq, not_true_eq_false, not_false_eq_true,
        Prod.mk.injEq, sub_self, add_sub_cancel_right] <;>
      first
        | exact ⟨rfl, rfl⟩
        | (constructor
           · linear_combination x * h00 + y * h01
           · linear_combination x * h10 + y * h11)

/-! ### The four functions, mode by mode -/

theorem land_three_two : (3 &&& 2 : Nat) = 2 := by decide

theorem land_three_one : (3 &&& 1 : Nat) = 1 := by decide

theorem land_one_two : (1 &&& 2 : Nat) = 0 := by decide

theorem land_one_one : (1 &&& 1 : Nat) = 1 := by decide

theorem world2machine_out_none (s : TransformState)
    (h : s.world2machine_correction_mode = 0) (x y : ℚ) (out : ℚ × ℚ) :
    world2machine_out s x y out = (x, y) := by
  simp [world2machine_out, h, WORLD2MACHINE_CORRECTION_NONE]

theorem world2machine_inplace_none (s : TransformState)
    (h : s.world2machine_correction_mode = 0) (x y : ℚ) :
    world2machine_inplace s x y = (x, y) := by
  simp [world2machine_inplace, h, WORLD2MACHINE_CORRECTION_NONE]

theorem machine2world_out_none (s : TransformState)
    (h : s.world2machine_correction_mode = 0) (x y : ℚ) (out : ℚ × ℚ) :
    machine2world_out s x y out = (x, y) := by
  simp [machine2world_out, h, WORLD2MACHINE_CORRECTION_NONE]

theorem machine2world_inplace_none (s : TransformState)
    (h : s.world2machine_correction_mode = 0) (x y : ℚ) :
    machine2world_inplace s x y = (x, y) := by
  simp [machine2world_inplace, h, WORLD2MACHINE_CORRECTION_NONE]

/-- In mode `SHIFT` the four-argument `world2machine` adds the shift to the
prior contents of the output variables: `x` and `y` are not read. -/
theorem world2machine_out_shift (s : TransformState)
    (h : s.world2machine_correction_mode = 1) (x y : ℚ) (out : ℚ × ℚ) :
    world2machine_out s x y out
      = (out.1 + s.world2machine_shift 0, out.2 + s.world2machine_shift 1) := by
  simp [world2machine_out, h, WORLD2MACHINE_CORRECTION_NONE, WORLD2MACHINE_CORRECTION_SHIFT,
    WORLD2MACHINE_CORRECTION_SKEW, land_one_two, land_one_one]

theorem world2machine_inplace_shift (s : TransformState)
    (h : s.world2machine_correction_mode = 1) (x y : ℚ) :
    world2machine_inplace s x y
      = (x + s.world2machine_shift 0, y + s.world2machine_shift 1) := by
  simp [world2machine_inplace, h, WORLD2MACHINE_CORRECTION_NONE,
    WORLD2MACHINE_CORRECTION_SHIFT, WORLD2MACHINE_CORRECTION_SKEW, land_one_two, land_one_one]

/-- In mode `SHIFT` the four-argument `machine2world` assigns neither output
variable: they keep their prior contents. -/
theorem machine2world_out_shift (s : TransformState)
    (h : s.world2machine_correction_mode = 1) (x y : ℚ) (out : ℚ × ℚ) :
    machine2world_out s x y out = out := by
  simp [machine2world_out, h, WORLD2MACHINE_CORRECTION_NONE, WORLD2MACHINE_CORRECTION_SHIFT,
    WORLD2MACHINE_CORRECTION_SKEW, land_one_two, land_one_one]

theorem machine2world_inplace_shift (s : TransformState)
    (h : s.world2machine_correction_mode = 1) (x y : ℚ) :
    machine2world_inplace s x y
      = (x - s.world2machine_shift 0, y - s.world2machine_shift 1) := by
  simp [machine2world_inplace, h, WORLD2MACHINE_CORRECTION_NONE,
    WORLD2MACHINE_CORRECTION_SHIFT, WORLD2MACHINE_CORRECTION_SKEW, land_one_two, land_one_one]

theorem world2machine_out_skew_shift (s : TransformState)
    (h : s.world2machine_correction_mode = 3) (x y : ℚ) (out : ℚ × ℚ) :
    world2machine_out s x y out
      = (s.world2machine_rotation_and_skew 0 0 * x + s.world2machine_rotation_and_skew 0 1 * y
           + s.world2machine_shift 0,
         s.world2machine_rotation_and_skew 1 0 * x + s.world2machine_rotation_and_skew 1 1 * y
           + s.world2machine_shift 1) := by
  simp [world2machine_out, h, WORLD2MACHINE_CORRECTION_NONE, WORLD2MACHINE_CORRECTION_SHIFT,
    WORLD2MACHINE_CORRECTION_SKEW, land_three_two, land_three_one]

theorem world2machine_inplace_skew_shift (s : TransformState)
    (h : s.world2machine_correction_mode = 3) (x y : ℚ) :
    world2machine_inplace s x y
      = (s.world2machine_rotation_and_skew 0 0 * x + s.world2machine_rotation_and_skew 0 1 * y
           + s.world2machine_shift 0,
         s.world2machine_rotation_and_skew 1 0 * x + s.world2machine_rotation_and_skew 1 1 * y
           + s.world2machine_shift 1) := by
  simp [world2machine_inplace, h, WORLD2MACHINE_CORRECTION_NONE,
    WORLD2MACHINE_CORRECTION_SHIFT, WORLD2MACHINE_CORRECTION_SKEW, land_three_two,
    land_three_one]

theorem machine2world_out_skew_shift (s : TransformState)
    (h : s.world2machine_correction_mode = 3) (x y : ℚ) (out : ℚ × ℚ) :
    machine2world_out s x y out
      = (s.world2machine_rotation_and_skew_inv 0 0 * (x - s.world2machine_shift 0)
           + s.world2machine_rotation_and_skew_inv 0 1 * (y - s.world2machine_shift 1),
         s.world2machine_rotation_and_skew_inv 1 0 * (x - s.world2machine_shift 0)
           + s.world2machine_rotation_and_skew_inv 1 1 * (y - s.world2machine_shift 1)) := by
  simp [machine2world_out, h, WORLD2MACHINE_CORRECTION_NONE, WORLD2MACHINE_CORRECTION_SHIFT,
    WORLD2MACHINE_CORRECTION_SKEW, land_three_two, land_three_one]

theorem machine2world_inplace_skew_shift (s : TransformState)
    (h : s.world2machine_correction_mode = 3) (x y : ℚ) :
    machine2world_inplace s x y
      = (s.world2machine_rotation_and_skew_inv 0 0 * (x - s.world2machine_shift 0)
           + s.world2machine_rotation_and_skew_inv 0 1 * (y - s.world2machine_shift 1),
         s.world2machine_rotation_and_skew_inv 1 0 * (x - s.world2machine_shift 0)
           + s.world2machine_rotation_and_skew_inv 1 1 * (y - s.world2machine_shift 1)) := by
  simp [machine2world_inplace, h, WORLD2MACHINE_CORRECTION_NONE,
    WORLD2MACHINE_CORRECTION_SHIFT, WORLD2MACHINE_CORRECTION_SKEW, land_three_two,
    land_three_one]

/-! ### Where the four-argument overloads assign their outputs -/

/-- When the mode is `NONE` or has the `SKEW` bit, the four-argument
`world2machine` assigns both outputs, with the values of the in-place one. -/
theorem world2machine_out_eq_inplace (s : TransformState)
    (h : s.world2machine_correction_mode = WORLD2MACHINE_CORRECTION_NONE ∨
      s.world2machine_correction_mode &&& WORLD2MACHINE_CORRECTION_SKEW ≠ 0)
    (x y : ℚ) (out : ℚ × ℚ) :
    world2machine_out s x y out = world2machine_inplace s x y := by
  unfold world2machine_out world2machine_inplace
  rcases h with h | h
  · simp [h]
  · simp [h]

/-- When the mode is `NONE` or has the `SKEW` bit, the four-argument
`machine2world` assigns both outputs, with the values of the in-place one. -/
theorem machine2world_out_eq_inplace (s : TransformState)
    (h : s.world2machine_correction_mode = WORLD2MACHINE_CORRECTION_NONE ∨
      s.world2machine_correction_mode &&& WORLD2MACHINE_CORRECTION_SKEW ≠ 0)
    (x y : ℚ) (out : ℚ × ℚ) :
    machine2world_out s x y out = machine2world_inplace s x y := by
  unfold machine2world_out machine2world_inplace
  rcases h with h | h
  · simp [h]
  · simp [h]

/-- In-place `machine2world` followed by in-place `world2machine` is the
identity in any mode, from `R * Rinv = 1` alone. -/
theorem inplace_reverse_roundtrip_of_right_inv (s : TransformState)
    (h : s.world2machine_rotation_and_skew * s.world2machine_rotation_and_skew_inv = 1)
    (x y : ℚ) :
    world2machine_inplace s (machine2world_inplace s x y).1 (machine2world_inplace s x y).2
      = (x, y) := by
  obtain ⟨h00, h01, h10, h11⟩ := mul_eq_one_entries _ _ h
  unfold machine2world_inplace world2machine_inplace
  by_cases hn : s.world2machine_correction_mode = WORLD2MACHINE_CORRECTION_NONE
  · simp [hn]
  · by_cases hk : s.world2machine_correction_mode &&& WORLD2MACHINE_CORRECTION_SKEW = 0 <;>
      by_cases hs : s.world2machine_correction_mode &&& WORLD2MACHINE_CORRECTION_SHIFT = 0 <;>
      simp only [hn, hk, hs, if_true, if_false, ne_eq, not_true_eq_false, not_false_eq_true,
        Prod.mk.injEq, sub_add_cancel] <;>
      first
        | exact ⟨rfl, rfl⟩
        | (constructor
           · linear_combination x * h00 + y * h01
           · linear_combination x * h10 + y * h11)
        | (constructor
           · linear_combination
               (x - s.world2machine_shift 0) * h00 + (y - s.world2machine_shift 1) * h01
           · linear_combination
               (x - s.world2machine_shift 0) * h10 + (y - s.world2machine_shift 1) * h11)

/-! ### The clamp -/

/-- The two successive tests on one axis (lines 120 and 128, or 124 and 132)
compute `min (max v lo) hi`. -/
theorem clamp_axis_val (lo hi v : ℚ) :
    (if (if v < lo then lo else v) > hi then hi else (if v < lo then lo else v))
      = min (max v lo) hi := by
  have hm : (if v < lo then lo else v) = max v lo := by
    rcases lt_or_le v lo with h | h
    · rw [if_pos h, max_eq_right h.le]
    · rw [if_neg (not_lt.mpr h), max_eq_left h]
  rw [hm]
  rcases lt_or_le hi (max v lo) with h | h
  · rw [if_pos h, min_eq_right h.le]
  · rw [if_neg (not_lt.mpr h), min_eq_left h]

/-- The flag `clamped` after the four tests is set exactly when the point is
not within the limits. -/
theorem clamp_flag (L : TravelLimits) (t : ℚ × ℚ) :
    (if (if t.2 < L.Y_MIN_POS then L.Y_MIN_POS else t.2) > L.Y_MAX_POS then true
      else if (if t.1 < L.X_MIN_POS then L.X_MIN_POS else t.1) > L.X_MAX_POS then true
      else if t.2 < L.Y_MIN_POS then true
      else if t.1 < L.X_MIN_POS then true else false)
      = !decide (inBounds L t) := by
  unfold inBounds
  by_cases a1 : t.1 < L.X_MIN_POS <;> by_cases a2 : t.2 < L.Y_MIN_POS <;>
    by_cases a3 : L.X_MAX_POS < t.1 <;> by_cases a4 : L.Y_MAX_POS < t.2 <;>
    simp [a1, a2, a3, a4, not_le.mpr, not_lt.mp]

/-- The body of `world2machine_clamp` in closed form: with `t` the contents
of `(tmpx, tmpy)` after the call of `world2machine`, the function returns
`false` and leaves `(x, y)` alone when `t` is within the limits, and otherwise
returns `true` and calls `machine2world` on `t` clamped axis by axis. -/
theorem world2machine_clamp_eq (L : TravelLimits) (s : TransformState) (x y : ℚ)
    (tmp : ℚ × ℚ) :
    world2machine_clamp L s x y tmp
      = if inBounds L (world2machine_out s x y tmp) then (false, (x, y))
        else (true, machine2world_out s
          (min (max (world2machine_out s x y tmp).1 L.X_MIN_POS) L.X_MAX_POS)
          (min (max (world2machine_out s x y tmp).2 L.Y_MIN_POS) L.Y_MAX_POS) (x, y)) := by
  unfold world2machine_clamp
  generalize world2machine_out s x y tmp = t
  simp only [clamp_axis_val, clamp_flag]
  by_cases hb : inBounds L t <;> simp [hb]

/-- In mode `SHIFT` the clamp never changes `(x, y)`: the call of
`machine2world` on line 137 assigns neither of them. -/
theorem world2machine_clamp_shift_snd (L : TravelLimits) (s : TransformState)
    (h : s.world2machine_correction_mode = 1) (x y : ℚ) (tmp : ℚ × ℚ) :
    (world2machine_clamp L s x y tmp).2 = (x, y) := by
  rw [world2machine_clamp_eq]
  split_ifs
  · rfl
  · simp [machine2world_out_shift s h]

/-- In mode `SHIFT` the flag returned by the clamp is decided by the initial
values of `tmpx`, `tmpy` and the shift; `x` and `y` play no part. -/
theorem world2machine_clamp_shift_fst (L : TravelLimits) (s : TransformState)
    (h : s.world2machine_correction_mode = 1) (x y : ℚ) (tmp : ℚ × ℚ) :
    (world2machine_clamp L s x y tmp).1
      = !decide (inBounds L (tmp.1 + s.world2machine_shift 0, tmp.2 + s.world2machine_shift 1)) := by
  rw [world2machine_clamp_eq, world2machine_out_shift s h]
  split_ifs with hb <;> simp [hb]

/-- A point clamped axis by axis lies within ordered limits. -/
theorem inBounds_clamped (L : TravelLimits) (hL : limitsOrdered L) (t : ℚ × ℚ) :
    inBounds L (min (max t.1 L.X_MIN_POS) L.X_MAX_POS, min (max t.2 L.Y_MIN_POS) L.Y_MAX_POS) :=
  ⟨le_min (le_max_right _ _) hL.1, min_le_right _ _,
   le_min (le_max_right _ _) hL.2, min_le_right _ _⟩

/-- When the mode is `NONE` or has the `SKEW` bit, the stored inverse is in
sync and the limits are ordered, the coordinates the clamp leaves map under
`world2machine` to a machine point within the limits. -/
theorem world2machine_clamp_in_bounds (L : TravelLimits) (s : TransformState)
    (h : s.world2machine_correction_mode = WORLD2MACHINE_CORRECTION_NONE ∨
      s.world2machine_correction_mode &&& WORLD2MACHINE_CORRECTION_SKEW ≠ 0)
    (hinv : invInSync s) (hL : limitsOrdered L) (x y : ℚ) (tmp : ℚ × ℚ) :
    inBounds L (world2machine_inplace s (world2machine_clamp L s x y tmp).2.1
      (world2machine_clamp L s x y tmp).2.2) := by
  rw [world2machine_clamp_eq, world2machine_out_eq_inplace s h]
  split_ifs with hb
  · exact hb
  · simp only [machine2world_out_eq_inplace s h]
    rw [inplace_reverse_roundtrip_of_right_inv s hinv.1]
    exact inBounds_clamped L hL _

/-- When the mode is `NONE` or has the `SKEW` bit, the clamp returns `false`
and leaves `(x, y)` alone exactly when the machine image of `(x, y)` is within
the limits, and otherwise returns `true` with `machine2world` of the image
clamped axis by axis. -/
theorem world2machine_clamp_of_defined (L : TravelLimits) (s : TransformState)
    (h : s.world2machine_correction_mode = WORLD2MACHINE_CORRECTION_NONE ∨
      s.world2machine_correction_mode &&& WORLD2MACHINE_CORRECTION_SKEW ≠ 0)
    (x y : ℚ) (tmp : ℚ × ℚ) :
    world2machine_clamp L s x y tmp
      = if inBounds L (world2machine_inplace s x y) then (false, (x, y))
        else (true, machine2world_inplace s
          (min (max (world2machine_inplace s x y).1 L.X_MIN_POS) L.X_MAX_POS)
          (min (max (world2machine_inplace s x y).2 L.Y_MIN_POS) L.Y_MAX_POS)) := by
  rw [world2machine_clamp_eq, world2machine_out_eq_inplace s h]
  simp only [machine2world_out_eq_inplace s h]

/-! ## Theorems -/

/-- C1. Round-trip law for the in-place overloads: in each of the modes
`NONE`, `SHIFT`, `SKEW | SHIFT`, when the stored inverse is the matrix inverse
of the rotation and skew matrix, in-place `world2machine` followed by in-place
`machine2world` returns the original pair, for every `(x, y)`. -/
theorem C1_inplace_roundtrip (s : TransformState) (hmode : legalMode s)
    (hinv : invInSync s) (x y : ℚ) :
    machine2world_inplace s (world2machine_inplace s x y).1 (world2machine_inplace s x y).2
      = (x, y) := by
  obtain ⟨h00, h01, h10, h11⟩ := mul_eq_one_entries _ _ hinv.2
  rcases hmode with h | h | h
  · rw [world2machine_inplace_none s h, machine2world_inplace_none s h]
  · rw [world2machine_inplace_shift s h, machine2world_inplace_shift s h]
    simp
  · rw [world2machine_inplace_skew_shift s h, machine2world_inplace_skew_shift s h]
    simp only [Prod.mk.injEq, add_sub_cancel_right]
    constructor
    · linear_combination x * h00 + y * h01
    · linear_combination x * h10 + y * h11

/-- Witness of C1 on the state `skewShiftState` at the point `(1, 2)`. -/
theorem C1_inplace_roundtrip_witness :
    legalMode skewShiftState ∧ invInSync skewShiftState ∧
      machine2world_inplace skewShiftState (world2machine_inplace skewShiftState 1 2).1
        (world2machine_inplace skewShiftState 1 2).2 = (1, 2) :=
  ⟨by simp [legalMode, skewShiftState],
   by simp [invInSync, skewShiftState, Matrix.one_fin_two],
   C1_inplace_roundtrip skewShiftState (by simp [legalMode, skewShiftState])
     (by simp [invInSync, skewShiftState, Matrix.one_fin_two]) 1 2⟩

/-- C2. Evaluation at the failing input: in the legal mode `SHIFT`, with
identity matrices (so the inverse is in sync), the four-argument
`world2machine` at `(1, 2)` with output variables holding `(0, 0)` leaves
`(5, 7)` in them (the shift added to their prior contents, not to `(1, 2)`),
and the four-argument `machine2world` then leaves its output variables at their
prior contents `(0, 0)`; the round trip does not return `(1, 2)`. -/
theorem C2_out_roundtrip_shift_mode :
    legalMode shiftState ∧ invInSync shiftState ∧
      world2machine_out shiftState 1 2 (0, 0) = (5, 7) ∧
      machine2world_out shiftState 5 7 (0, 0) = (0, 0) ∧
      machine2world_out shiftState (world2machine_out shiftState 1 2 (0, 0)).1
        (world2machine_out shiftState 1 2 (0, 0)).2 (0, 0) ≠ (1, 2) := by
  have hm : shiftState.world2machine_correction_mode = 1 := rfl
  refine ⟨by simp [legalMode, shiftState],
    by simp [invInSync, shiftState, Matrix.one_fin_two], ?_, ?_, ?_⟩
  · rw [world2machine_out_shift _ hm]; simp [shiftState]
  · rw [machine2world_out_shift _ hm]
  · rw [machine2world_out_shift _ hm]
    intro h
    exact absurd (congrArg Prod.fst h) (by norm_num)

/-- C3. Evaluation at the failing input: in the legal mode `SHIFT` with shift
`(5, 7)`, identity matrices and limits `0 ≤ x ≤ 250`, `0 ≤ y ≤ 210`, the clamp
called on `(1000, 0)` leaves `(1000, 0)` in the caller's variables whatever
`tmpx`, `tmpy` held (with `(0, 0)` it returns `false`), and `(1000, 0)` maps
under `world2machine` to `(1005, 7)`, which is beyond `X_MAX_POS`. -/
theorem C3_clamp_shift_mode_out_of_bounds :
    legalMode shiftState ∧ invInSync shiftState ∧ limitsOrdered sampleLimits ∧
      (∀ tmp : ℚ × ℚ, (world2machine_clamp sampleLimits shiftState 1000 0 tmp).2 = (1000, 0)) ∧
      world2machine_clamp sampleLimits shiftState 1000 0 (0, 0) = (false, (1000, 0)) ∧
      world2machine_inplace shiftState 1000 0 = (1005, 7) ∧
      ¬ inBounds sampleLimits (1005, 7) := by
  have hm : shiftState.world2machine_correction_mode = 1 := rfl
  refine ⟨by simp [legalMode, shiftState],
    by simp [invInSync, shiftState, Matrix.one_fin_two],
    by norm_num [limitsOrdered, sampleLimits], ?_, ?_, ?_, ?_⟩
  · intro tmp
    exact world2machine_clamp_shift_snd sampleLimits shiftState hm 1000 0 tmp
  · rw [world2machine_clamp_eq, world2machine_out_shift _ hm]
    norm_num [inBounds, sampleLimits, shiftState]
  · rw [world2machine_inplace_shift _ hm]; norm_num [shiftState]
  · norm_num [inBounds, sampleLimits]

/-- C4. Evaluation at the failing input: in the legal mode `SHIFT` with shift
`(5, 7)` the point `(0, 0)` has the machine image `(5, 7)`, within the limits
`0 ≤ x ≤ 250`, `0 ≤ y ≤ 210`; when `tmpx`, `tmpy` initially hold `(-10, 0)` the
clamp nevertheless returns `true` (and leaves `(0, 0)`). -/
theorem C4_clamp_shift_mode_flag_in_bounds :
    legalMode shiftState ∧
      world2machine_inplace shiftState 0 0 = (5, 7) ∧ inBounds sampleLimits (5, 7) ∧
      world2machine_clamp sampleLimits shiftState 0 0 (-10, 0) = (true, (0, 0)) := by
  have hm : shiftState.world2machine_correction_mode = 1 := rfl
  refine ⟨by simp [legalMode, shiftState], ?_, by norm_num [inBounds, sampleLimits], ?_⟩
  · rw [world2machine_inplace_shift _ hm]; norm_num [shiftState]
  · rw [world2machine_clamp_eq, world2machine_out_shift _ hm, machine2world_out_shift _ hm]
    norm_num [inBounds, sampleLimits, shiftState]

/-- C5. In mode `SKEW | SHIFT` both overloads of `world2machine` apply the
rotation and skew matrix first and add the shift second: the result is
`R * (x, y) + shift`, whatever the output variables held before. -/
theorem C5_world2machine_skew_then_shift (s : TransformState)
    (hmode : s.world2machine_correction_mode = 3) (x y : ℚ) (out : ℚ × ℚ) :
    world2machine_out s x y out
        = (s.world2machine_rotation_and_skew 0 0 * x
             + s.world2machine_rotation_and_skew 0 1 * y + s.world2machine_shift 0,
           s.world2machine_rotation_and_skew 1 0 * x
             + s.world2machine_rotation_and_skew 1 1 * y + s.world2machine_shift 1) ∧
      world2machine_inplace s x y
        = (s.world2machine_rotation_and_skew 0 0 * x
             + s.world2machine_rotation_and_skew 0 1 * y + s.world2machine_shift 0,
           s.world2machine_rotation_and_skew 1 0 * x
             + s.world2machine_rotation_and_skew 1 1 * y + s.world2machine_shift 1) :=
  ⟨world2machine_out_skew_shift s hmode x y out, world2machine_inplace_skew_shift s hmode x y⟩

/-- Witness of C5 on `skewShiftState` at `(1, 2)`, the output variables
holding `(100, 200)` before the call. -/
theorem C5_world2machine_skew_then_shift_witness :
    skewShiftState.world2machine_correction_mode = 3 ∧
      world2machine_out skewShiftState 1 2 (100, 200) = (10, 9) ∧
      world2machine_inplace skewShiftState 1 2 = (10, 9) := by
  have h := C5_world2machine_skew_then_shift skewShiftState rfl 1 2 (100, 200)
  refine ⟨rfl, ?_, ?_⟩
  · rw [h.1]; norm_num [skewShiftState]
  · rw [h.2]; norm_num [skewShiftState]

/-- C6. In mode `SKEW | SHIFT` both overloads of `machine2world` subtract the
shift first and apply the inverse matrix second: the result is
`Rinv * ((x, y) - shift)`, whatever the output variables held before. -/
theorem C6_machine2world_unshift_then_unskew (s : TransformState)
    (hmode : s.world2machine_correction_mode = 3) (x y : ℚ) (out : ℚ × ℚ) :
    machine2world_out s x y out
        = (s.world2machine_rotation_and_skew_inv 0 0 * (x - s.world2machine_shift 0)
             + s.world2machine_rotation_and_skew_inv 0 1 * (y - s.world2machine_shift 1),
           s.world2machine_rotation_and_skew_inv 1 0 * (x - s.world2machine_shift 0)
             + s.world2machine_rotation_and_skew_inv 1 1 * (y - s.world2machine_shift 1)) ∧
      machine2world_inplace s x y
        = (s.world2machine_rotation_and_skew_inv 0 0 * (x - s.world2machine_shift 0)
             + s.world2machine_rotation_and_skew_inv 0 1 * (y - s.world2machine_shift 1),
           s.world2machine_rotation_and_skew_inv 1 0 * (x - s.world2machine_shift 0)
             + s.world2machine_rotation_and_skew_inv 1 1 * (y - s.world2machine_shift 1)) :=
  ⟨machine2world_out_skew_shift s hmode x y out, machine2world_inplace_skew_shift s hmode x y⟩

/-- Witness of C6 on `skewShiftState` at the machine point `(10, 9)`, the
output variables holding `(100, 200)` before the call. -/
theorem C6_machine2world_unshift_then_unskew_witness :
    skewShiftState.world2machine_correction_mode = 3 ∧
      machine2world_out skewShiftState 10 9 (100, 200) = (1, 2) ∧
      machine2world_inplace skewShiftState 10 9 = (1, 2) := by
  have h := C6_machine2world_unshift_then_unskew skewShiftState rfl 10 9 (100, 200)
  refine ⟨rfl, ?_, ?_⟩
  · rw [h.1]; norm_num [skewShiftState]
  · rw [h.2]; norm_num [skewShiftState]

/-- C7. Evaluation at the failing input: in mode `SHIFT` with shift `(5, 7)`
the two call conventions differ.  At `(1, 2)` with output variables holding
`(0, 0)` the four-argument `world2machine` leaves `(5, 7)` where the in-place
one leaves `(6, 9)`; at `(6, 9)` the four-argument `machine2world` leaves the
prior contents `(0, 0)` where the in-place one leaves `(1, 2)`. -/
theorem C7_overloads_differ_shift_mode :
    world2machine_out shiftState 1 2 (0, 0) = (5, 7) ∧
      world2machine_inplace shiftState 1 2 = (6, 9) ∧
      machine2world_out shiftState 6 9 (0, 0) = (0, 0) ∧
      machine2world_inplace shiftState 6 9 = (1, 2) := by
  have hm : shiftState.world2machine_correction_mode = 1 := rfl
  refine ⟨?_, ?_, ?_, ?_⟩
  · rw [world2machine_out_shift _ hm]; simp [shiftState]
  · rw [world2machine_inplace_shift _ hm]; norm_num [shiftState]
  · rw [machine2world_out_shift _ hm]
  · rw [machine2world_inplace_shift _ hm]; norm_num [shiftState]

/-- C8. Mode `NONE` is a pure copy: whatever the matrices, the shift and the
prior contents of the output variables, both overloads of `world2machine` and
both overloads of `machine2world` return exactly the input `(x, y)`. -/
theorem C8_mode_none_is_copy (s : TransformState)
    (hmode : s.world2machine_correction_mode = WORLD2MACHINE_CORRECTION_NONE)
    (x y : ℚ) (out : ℚ × ℚ) :
    world2machine_out s x y out = (x, y) ∧ world2machine_inplace s x y = (x, y) ∧
      machine2world_out s x y out = (x, y) ∧ machine2world_inplace s x y = (x, y) :=
  ⟨world2machine_out_none s hmode x y out, world2machine_inplace_none s hmode x y,
   machine2world_out_none s hmode x y out, machine2world_inplace_none s hmode x y⟩

/-- Witness of C8 on `noneState`, whose matrices are not inverse to each other
and whose shift is not zero. -/
theorem C8_mode_none_is_copy_witness :
    noneState.world2machine_correction_mode = WORLD2MACHINE_CORRECTION_NONE ∧
      ¬ invInSync noneState ∧
      world2machine_out noneState 1 2 (100, 200) = (1, 2) ∧
      world2machine_inplace noneState 1 2 = (1, 2) ∧
      machine2world_out noneState 1 2 (100, 200) = (1, 2) ∧
      machine2world_inplace noneState 1 2 = (1, 2) :=
  ⟨rfl, by
    intro h
    have h00 := (mul_eq_one_entries _ _ h.1).1
    norm_num [noneState] at h00,
   C8_mode_none_is_copy noneState rfl 1 2 (100, 200)⟩

/-- C9. Evaluation at the failing input: in the legal mode `SHIFT` with shift
`(5, 7)` and limits `0 ≤ x ≤ 250`, `0 ≤ y ≤ 210`, the point `(-50, 500)` has the
machine image `(-45, 507)`, outside the limits on both axes.  With `tmpx`,
`tmpy` initially `(10, 10)` the clamp returns `false`; with `(-10, 0)` it
returns `true` and leaves `(-50, 500)`, not the image `(-5, 203)` under
`machine2world` of the clamped machine point `(0, 210)`. -/
theorem C9_clamp_shift_mode_flag_and_result :
    legalMode shiftState ∧ limitsOrdered sampleLimits ∧
      world2machine_inplace shiftState (-50) 500 = (-45, 507) ∧
      ¬ inBounds sampleLimits (-45, 507) ∧
      world2machine_clamp sampleLimits shiftState (-50) 500 (10, 10) = (false, (-50, 500)) ∧
      world2machine_clamp sampleLimits shiftState (-50) 500 (-10, 0) = (true, (-50, 500)) ∧
      machine2world_inplace shiftState
          (min (max (-45) sampleLimits.X_MIN_POS) sampleLimits.X_MAX_POS)
          (min (max 507 sampleLimits.Y_MIN_POS) sampleLimits.Y_MAX_POS) = (-5, 203) := by
  have hm : shiftState.world2machine_correction_mode = 1 := rfl
  refine ⟨by simp [legalMode, shiftState], by norm_num [limitsOrdered, sampleLimits],
    ?_, by norm_num [inBounds, sampleLimits], ?_, ?_, ?_⟩
  · rw [world2machine_inplace_shift _ hm]; norm_num [shiftState]
  · rw [world2machine_clamp_eq, world2machine_out_shift _ hm]
    norm_num [inBounds, sampleLimits, shiftState]
  · rw [world2machine_clamp_eq, world2machine_out_shift _ hm, machine2world_out_shift _ hm]
    norm_num [inBounds, sampleLimits, shiftState]
  · rw [machine2world_inplace_shift _ hm]; norm_num [sampleLimits, shiftState]

/-- C10. Evaluation at the failing input: in the legal mode `SHIFT` two runs
of the clamp on the same state, the same limits and the same `(0, 0)` return
different flags, `false` when `tmpx`, `tmpy` initially hold `(0, 0)` and `true`
when they hold `(-10, 0)`. -/
theorem C10_clamp_shift_mode_depends_on_tmp :
    world2machine_clamp sampleLimits shiftState 0 0 (0, 0) = (false, (0, 0)) ∧
      world2machine_clamp sampleLimits shiftState 0 0 (-10, 0) = (true, (0, 0)) := by
  have hm : shiftState.world2machine_correction_mode = 1 := rfl
  constructor
  · rw [world2machine_clamp_eq, world2machine_out_shift _ hm]
    norm_num [inBounds, sampleLimits, shiftState]
  · rw [world2machine_clamp_eq, world2machine_out_shift _ hm, machine2world_out_shift _ hm]
    norm_num [inBounds, sampleLimits, shiftState]

/-- C11. Result-code contract: `FAILED` is negative and every other
enumerator is non-negative; every value made of one grade or-ed with a subset
of the advisory bits `FRONT_LEFT_FAR`, `FRONT_RIGHT_FAR` is non-negative, its
grade is recovered by the mask 3 and its advisory set by the mask 12, grade and
advisory bits share no bit; `FRONT_BOTH_FAR` is `FRONT_LEFT_FAR | FRONT_RIGHT_FAR`,
that is 12. -/
theorem C11_result_code_contract :
    BED_SKEW_OFFSET_DETECTION_FAILED < 0 ∧
      0 ≤ BED_SKEW_OFFSET_DETECTION_PERFECT ∧
      0 ≤ BED_SKEW_OFFSET_DETECTION_SKEW_MILD ∧
      0 ≤ BED_SKEW_OFFSET_DETECTION_SKEW_EXTREME ∧
      0 ≤ BED_SKEW_OFFSET_DETECTION_FRONT_LEFT_FAR ∧
      0 ≤ BED_SKEW_OFFSET_DETECTION_FRONT_RIGHT_FAR ∧
      0 ≤ BED_SKEW_OFFSET_DETECTION_FRONT_BOTH_FAR ∧
      (∀ (g : Fin 3) (l r : Bool),
        0 ≤ resultCode g l r ∧
          Int.land (resultCode g l r) 3 = gradeCode g ∧
          Int.land (resultCode g l r) 12 = advisoryCode l r ∧
          Int.land (gradeCode g) (advisoryCode l r) = 0) ∧
      BED_SKEW_OFFSET_DETECTION_FRONT_BOTH_FAR
        = Int.lor BED_SKEW_OFFSET_DETECTION_FRONT_LEFT_FAR
            BED_SKEW_OFFSET_DETECTION_FRONT_RIGHT_FAR ∧
      BED_SKEW_OFFSET_DETECTION_FRONT_BOTH_FAR = 12 ∧
      advisoryCode true true = BED_SKEW_OFFSET_DETECTION_FRONT_BOTH_FAR := by
  decide

/-- C12, counterexample.  In mode `SKEW | SHIFT`, with a matrix that is not
the identity and a shift that is not zero, `world2machine` and the reversed
composition give the same result `(10, 2)` at `(1, 2)`: the shear
`[[1, 2], [0, 1]]` fixes the shift `(5, 0)`. -/
theorem C12_order_counterexample :
    fixedShiftState.world2machine_correction_mode = 3 ∧
      fixedShiftState.world2machine_rotation_and_skew ≠ 1 ∧
      fixedShiftState.world2machine_shift ≠ 0 ∧
      world2machine_out fixedShiftState 1 2 (0, 0) = (10, 2) ∧
      world2machine_inplace fixedShiftState 1 2 = (10, 2) ∧
      shift_then_skew fixedShiftState 1 2 = (10, 2) ∧
      world2machine_out fixedShiftState 1 2 (0, 0) = shift_then_skew fixedShiftState 1 2 := by
  have hm : fixedShiftState.world2machine_correction_mode = 3 := rfl
  have h1 : world2machine_out fixedShiftState 1 2 (0, 0) = (10, 2) := by
    rw [world2machine_out_skew_shift _ hm]; norm_num [fixedShiftState]
  have h2 : shift_then_skew fixedShiftState 1 2 = (10, 2) := by
    norm_num [shift_then_skew, fixedShiftState]
  refine ⟨rfl, ?_, ?_, h1, ?_, h2, h1.trans h2.symm⟩
  · intro h
    have h01 := congrFun (congrFun h 0) 1
    norm_num [fixedShiftState] at h01
  · intro h
    have h0 := congrFun h 0
    norm_num [fixedShiftState] at h0
  · rw [world2machine_inplace_skew_shift _ hm]; norm_num [fixedShiftState]

/-- C12, amended.  In mode `SKEW | SHIFT`, for every `(x, y)` and whatever the
output variables held, the result `R * (x, y) + shift` of either overload of
`world2machine` differs from the reversed composition `R * ((x, y) + shift)`
exactly when the matrix does not fix the shift vector, `R * shift ≠ shift`. -/
theorem C12_order_matters_iff (s : TransformState)
    (hmode : s.world2machine_correction_mode = 3) (x y : ℚ) (out : ℚ × ℚ) :
    (world2machine_out s x y out ≠ shift_then_skew s x y ↔
        Matrix.mulVec s.world2machine_rotation_and_skew s.world2machine_shift
          ≠ s.world2machine_shift) ∧
      (world2machine_inplace s x y ≠ shift_then_skew s x y ↔
        Matrix.mulVec s.world2machine_rotation_and_skew s.world2machine_shift
          ≠ s.world2machine_shift) := by
  have key : ∀ p : ℚ × ℚ,
      p = (s.world2machine_rotation_and_skew 0 0 * x + s.world2machine_rotation_and_skew 0 1 * y
             + s.world2machine_shift 0,
           s.world2machine_rotation_and_skew 1 0 * x + s.world2machine_rotation_and_skew 1 1 * y
             + s.world2machine_shift 1) →
      (p ≠ shift_then_skew s x y ↔
        Matrix.mulVec s.world2machine_rotation_and_skew s.world2machine_shift
          ≠ s.world2machine_shift) := by
    intro p hp
    subst hp
    apply not_congr
    rw [funext_iff, Fin.forall_fin_two]
    simp only [shift_then_skew, Prod.mk.injEq, Matrix.mulVec, Matrix.dotProduct,
      Fin.sum_univ_two]
    constructor
    · rintro ⟨ha, hb⟩
      constructor
      · linear_combination -ha
      · linear_combination -hb
    · rintro ⟨ha, hb⟩
      constructor
      · linear_combination -ha
      · linear_combination -hb
  exact ⟨key _ (world2machine_out_skew_shift s hmode x y out),
    key _ (world2machine_inplace_skew_shift s hmode x y)⟩

/-- Witness of C12 (amended) on `skewShiftState`, whose shear maps the shift
`(5, 7)` to `(19, 7)`: at `(1, 2)` both overloads differ from the reversed
composition. -/
theorem C12_order_matters_iff_witness :
    skewShiftState.world2machine_correction_mode = 3 ∧
      world2machine_out skewShiftState 1 2 (0, 0) ≠ shift_then_skew skewShiftState 1 2 ∧
      world2machine_inplace skewShiftState 1 2 ≠ shift_then_skew skewShiftState 1 2 := by
  have hne : Matrix.mulVec skewShiftState.world2machine_rotation_and_skew
      skewShiftState.world2machine_shift ≠ skewShiftState.world2machine_shift := by
    intro h
    have h0 := congrFun h 0
    norm_num [skewShiftState, Matrix.mulVec, Matrix.dotProduct, Fin.sum_univ_two] at h0
  exact ⟨rfl, (C12_order_matters_iff skewShiftState rfl 1 2 (0, 0)).1.mpr hne,
    (C12_order_matters_iff skewShiftState rfl 1 2 (0, 0)).2.mpr hne⟩

/-- C13. Reverse round trip: in each of the modes `NONE`, `SHIFT`,
`SKEW | SHIFT`, when `Rinv * R` is the identity (nothing is assumed of
`R * Rinv`), in-place `machine2world` followed by in-place `world2machine`
returns the original machine point; together with the forward round trip this
makes the two functions inverse to each other and both bijections of the
plane. -/
theorem C13_reverse_roundtrip (s : TransformState) (hmode : legalMode s)
    (hleft : s.world2machine_rotation_and_skew_inv * s.world2machine_rotation_and_skew = 1) :
    (∀ x y : ℚ, world2machine_inplace s (machine2world_inplace s x y).1
        (machine2world_inplace s x y).2 = (x, y)) ∧
      (∀ x y : ℚ, machine2world_inplace s (world2machine_inplace s x y).1
        (world2machine_inplace s x y).2 = (x, y)) ∧
      Function.Bijective (fun p : ℚ × ℚ => world2machine_inplace s p.1 p.2) ∧
      Function.Bijective (fun p : ℚ × ℚ => machine2world_inplace s p.1 p.2) := by
  have hright : s.world2machine_rotation_and_skew * s.world2machine_rotation_and_skew_inv = 1 :=
    Matrix.mul_eq_one_comm.mp hleft
  obtain ⟨h00, h01, h10, h11⟩ := mul_eq_one_entries _ _ hright
  have hrev : ∀ x y : ℚ, world2machine_inplace s (machine2world_inplace s x y).1
      (machine2world_inplace s x y).2 = (x, y) := by
    intro x y
    rcases hmode with h | h | h
    · rw [machine2world_inplace_none s h, world2machine_inplace_none s h]
    · rw [machine2world_inplace_shift s h, world2machine_inplace_shift s h]
      simp
    · rw [machine2world_inplace_skew_shift s h, world2machine_inplace_skew_shift s h]
      simp only [Prod.mk.injEq]
      constructor
      · linear_combination
          (x - s.world2machine_shift 0) * h00 + (y - s.world2machine_shift 1) * h01
      · linear_combination
          (x - s.world2machine_shift 0) * h10 + (y - s.world2machine_shift 1) * h11
  have hfwd : ∀ x y : ℚ, machine2world_inplace s (world2machine_inplace s x y).1
      (world2machine_inplace s x y).2 = (x, y) :=
    fun x y => inplace_roundtrip_of_left_inv s hleft x y
  refine ⟨hrev, hfwd, ?_, ?_⟩
  · rw [Function.bijective_iff_has_inverse]
    exact ⟨fun p => machine2world_inplace s p.1 p.2, fun p => hfwd p.1 p.2,
      fun p => hrev p.1 p.2⟩
  · rw [Function.bijective_iff_has_inverse]
    exact ⟨fun p => world2machine_inplace s p.1 p.2, fun p => hrev p.1 p.2,
      fun p => hfwd p.1 p.2⟩

/-- Witness of C13 on `skewShiftState`: the machine point `(10, 9)` goes to
`(1, 2)` and back. -/
theorem C13_reverse_roundtrip_witness :
    legalMode skewShiftState ∧
      skewShiftState.world2machine_rotation_and_skew_inv
        * skewShiftState.world2machine_rotation_and_skew = 1 ∧
      world2machine_inplace skewShiftState (machine2world_inplace skewShiftState 10 9).1
        (machine2world_inplace skewShiftState 10 9).2 = (10, 9) :=
  ⟨by simp [legalMode, skewShiftState],
   by simp [skewShiftState, Matrix.one_fin_two],
   (C13_reverse_roundtrip skewShiftState (by simp [legalMode, skewShiftState])
     (by simp [skewShiftState, Matrix.one_fin_two])).1 10 9⟩

/-- C14. The clamp is idempotent: in mode `NONE` or `SKEW | SHIFT`, with the
stored inverse in sync and ordered limits, a second call on the coordinates
left by a first call returns `false` and leaves them unchanged, whatever the
initial values of `tmpx`, `tmpy` in either call. -/
theorem C14_clamp_idempotent (L : TravelLimits) (s : TransformState)
    (hmode : s.world2machine_correction_mode = 0 ∨ s.world2machine_correction_mode = 3)
    (hinv : invInSync s) (hL : limitsOrdered L) (x y : ℚ) (tmp tmp2 : ℚ × ℚ) :
    world2machine_clamp L s (world2machine_clamp L s x y tmp).2.1
        (world2machine_clamp L s x y tmp).2.2 tmp2
      = (false, (world2machine_clamp L s x y tmp).2) := by
  have hd : s.world2machine_correction_mode = WORLD2MACHINE_CORRECTION_NONE ∨
      s.world2machine_correction_mode &&& WORLD2MACHINE_CORRECTION_SKEW ≠ 0 := by
    rcases hmode with h | h
    · exact Or.inl h
    · right
      rw [h]
      decide
  rw [world2machine_clamp_of_defined L s hd _ _ tmp2,
    if_pos (world2machine_clamp_in_bounds L s hd hinv hL x y tmp)]

/-- Witness of C14 on `skewShiftState` with the limits `0 ≤ x ≤ 250`,
`0 ≤ y ≤ 210`: the first call on `(1000, 0)` clamps to `(245, 0)`, the second
call returns `false` and leaves `(245, 0)`. -/
theorem C14_clamp_idempotent_witness :
    (skewShiftState.world2machine_correction_mode = 0 ∨
        skewShiftState.world2machine_correction_mode = 3) ∧
      invInSync skewShiftState ∧ limitsOrdered sampleLimits ∧
      world2machine_clamp sampleLimits skewShiftState 1000 0 (0, 0) = (true, (245, 0)) ∧
      world2machine_clamp sampleLimits skewShiftState
          (world2machine_clamp sampleLimits skewShiftState 1000 0 (0, 0)).2.1
          (world2machine_clamp sampleLimits skewShiftState 1000 0 (0, 0)).2.2 (77, -3)
        = (false, (world2machine_clamp sampleLimits skewShiftState 1000 0 (0, 0)).2) := by
  have hm : skewShiftState.world2machine_correction_mode = 3 := rfl
  have hinv : invInSync skewShiftState := by
    simp [invInSync, skewShiftState, Matrix.one_fin_two]
  have hL : limitsOrdered sampleLimits := by norm_num [limitsOrdered, sampleLimits]
  refine ⟨Or.inr hm, hinv, hL, ?_,
    C14_clamp_idempotent sampleLimits skewShiftState (Or.inr hm) hinv hL 1000 0 (0, 0) (77, -3)⟩
  rw [world2machine_clamp_eq, world2machine_out_skew_shift _ hm,
    machine2world_out_skew_shift _ hm]
  norm_num [inBounds, sampleLimits, skewShiftState]

/-- C15. The in-place round trip holds for every value of the mode, legal or
not (the 8-bit values included, such as `SKEW` without `SHIFT` and non-zero
values with neither flag bit): when the stored inverse is in sync, in-place
`world2machine` followed by in-place `machine2world` returns `(x, y)`. -/
theorem C15_inplace_roundtrip_any_mode (s : TransformState) (hinv : invInSync s)
    (x y : ℚ) :
    machine2world_inplace s (world2machine_inplace s x y).1 (world2machine_inplace s x y).2
      = (x, y) :=
  inplace_roundtrip_of_left_inv s hinv.2 x y

/-- Witness of C15 on a state of mode 2 (`SKEW` alone) and on a state of
mode 4 (neither flag bit), at the point `(1, 2)`. -/
theorem C15_inplace_roundtrip_any_mode_witness :
    skewOnlyState.world2machine_correction_mode = 2 ∧ invInSync skewOnlyState ∧
      machine2world_inplace skewOnlyState (world2machine_inplace skewOnlyState 1 2).1
        (world2machine_inplace skewOnlyState 1 2).2 = (1, 2) ∧
      spareBitState.world2machine_correction_mode = 4 ∧ invInSync spareBitState ∧
      machine2world_inplace spareBitState (world2machine_inplace spareBitState 1 2).1
        (world2machine_inplace spareBitState 1 2).2 = (1, 2) :=
  ⟨rfl, by simp [invInSync, skewOnlyState, Matrix.one_fin_two],
   C15_inplace_roundtrip_any_mode skewOnlyState
     (by simp [invInSync, skewOnlyState, Matrix.one_fin_two]) 1 2,
   rfl, by simp [invInSync, spareBitState, Matrix.one_fin_two],
   C15_inplace_roundtrip_any_mode spareBitState
     (by simp [invInSync, spareBitState, Matrix.one_fin_two]) 1 2⟩

/-- C16. When the mode is `NONE` or has the `SKEW` bit, the four-argument
overloads of `world2machine` and `machine2world` define both outputs: the
values left in the output variables equal those of the in-place overload and
are the same for any two prior contents `out`, `out2` of the output
variables. -/
theorem C16_out_overloads_defined (s : TransformState)
    (hmode : s.world2machine_correction_mode = 0 ∨
      s.world2machine_correction_mode &&& WORLD2MACHINE_CORRECTION_SKEW ≠ 0)
    (x y : ℚ) (out out2 : ℚ × ℚ) :
    world2machine_out s x y out = world2machine_inplace s x y ∧
      machine2world_out s x y out = machine2world_inplace s x y ∧
      world2machine_out s x y out = world2machine_out s x y out2 ∧
      machine2world_out s x y out = machine2world_out s x y out2 :=
  ⟨world2machine_out_eq_inplace s hmode x y out,
   machine2world_out_eq_inplace s hmode x y out,
   (world2machine_out_eq_inplace s hmode x y out).trans
     (world2machine_out_eq_inplace s hmode x y out2).symm,
   (machine2world_out_eq_inplace s hmode x y out).trans
     (machine2world_out_eq_inplace s hmode x y out2).symm⟩

/-- Witness of C16 on the state of mode 2 (`SKEW` alone) at `(1, 2)`, the
output variables holding `(100, 200)` or `(-3, 8)` before the call. -/
theorem C16_out_overloads_defined_witness :
    (skewOnlyState.world2machine_correction_mode = 0 ∨
        skewOnlyState.world2machine_correction_mode &&& WORLD2MACHINE_CORRECTION_SKEW ≠ 0) ∧
      world2machine_out skewOnlyState 1 2 (100, 200) = world2machine_inplace skewOnlyState 1 2 ∧
      machine2world_out skewOnlyState 1 2 (100, 200) = machine2world_inplace skewOnlyState 1 2 ∧
      world2machine_out skewOnlyState 1 2 (100, 200) = world2machine_out skewOnlyState 1 2 (-3, 8) ∧
      machine2world_out skewOnlyState 1 2 (100, 200)
        = machine2world_out skewOnlyState 1 2 (-3, 8) :=
  ⟨Or.inr (by decide),
   C16_out_overloads_defined skewOnlyState (Or.inr (by decide)) 1 2 (100, 200) (-3, 8)⟩

/-- C17. In mode `SHIFT` the matrices are ignored: whatever the rotation and
skew matrix and its stored inverse, in-place `world2machine` maps `(x, y)` to
`(x + shift[0], y + shift[1])` and in-place `machine2world` maps `(x, y)` to
`(x - shift[0], y - shift[1])`. -/
theorem C17_shift_mode_ignores_matrices (s : TransformState)
    (hmode : s.world2machine_correction_mode = WORLD2MACHINE_CORRECTION_SHIFT) (x y : ℚ) :
    world2machine_inplace s x y
        = (x + s.world2machine_shift 0, y + s.world2machine_shift 1) ∧
      machine2world_inplace s x y
        = (x - s.world2machine_shift 0, y - s.world2machine_shift 1) :=
  ⟨world2machine_inplace_shift s hmode x y, machine2world_inplace_shift s hmode x y⟩

/-- Witness of C17 on `shiftJunkState`, whose matrices are not inverse to each
other: `(1, 2)` goes to `(6, 9)` and `(6, 9)` goes to `(1, 2)`. -/
theorem C17_shift_mode_ignores_matrices_witness :
    shiftJunkState.world2machine_correction_mode = WORLD2MACHINE_CORRECTION_SHIFT ∧
      ¬ invInSync shiftJunkState ∧
      world2machine_inplace shiftJunkState 1 2 = (6, 9) ∧
      machine2world_inplace shiftJunkState 6 9 = (1, 2) := by
  have hw := C17_shift_mode_ignores_matrices shiftJunkState rfl 1 2
  have hm := C17_shift_mode_ignores_matrices shiftJunkState rfl 6 9
  refine ⟨rfl, ?_, ?_, ?_⟩
  · intro h
    have h00 := (mul_eq_one_entries _ _ h.1).1
    norm_num [shiftJunkState] at h00
  · rw [hw.1]; norm_num [shiftJunkState]
  · rw [hm.2]; norm_num [shiftJunkState]

end MeshBedCalibration
